import Mathlib

/-!
# riak_exporter: the scrape, Collect and Describe of `riak_exporter.go`

A shallow embedding of the single source file.  The Riak node and the clock are
an explicit `World`; a run of `scrape` returns the exporter afterwards, the
metrics it sent on the channel, the URLs it fetched and how it left (by
returning or by a panic that unwinds through the deferred functions).
-/

namespace RiakExporter

/-! ## Values -/

/-- A Go `float64`, kept as its IEEE-754 bit pattern.  The exporter only stores
and forwards such values, so no floating point arithmetic is needed. -/
structure Float64 where
  bits : Nat
deriving DecidableEq, Repr

/-- The float64 literal `0`. -/
instance : OfNat Float64 0 := ⟨⟨0⟩⟩

/-- The float64 literal `1` (bit pattern 0x3FF0000000000000). -/
instance : OfNat Float64 1 := ⟨⟨0x3FF0000000000000⟩⟩

/-- What `json.Unmarshal` stores in an `interface{}`: nil, bool, float64,
string, `[]interface{}` or `map[string]interface{}`.  A map is given by its
entries in the order in which the `range` loop of `scrape` visits them. -/
inductive Value where
  | null
  | bool (b : Bool)
  | number (x : Float64)
  | string (s : String)
  | array (xs : List Value)
  | object (m : List (String × Value))

/-! ## Flags and constants (lines 16-43) -/

/-- The three command line flags. -/
structure Flags where
  listenAddress : String
  metricsPath : String
  riakURI : String
deriving DecidableEq, Repr

/-- The values the flag variables hold from their `flag.String` definitions
until `flag.Parse` runs. -/
def defaultFlags : Flags :=
  { listenAddress := ":9104"
    metricsPath := "/metrics"
    riakURI := "http://localhost:8098" }

/-- The constant `namespace` of the source. -/
def namespaceName : String := "riak"

/-- The constant `exporter` of the source. -/
def exporter : String := "exporter"

/-- The package-level variable `landingPage`.  Its initialiser reads
`*metricsPath` when the package is initialised, which is before `main` and so
before `flag.Parse`: the flag still holds its default. -/
def landingPage : String :=
  "<html>\n<head><title>Riak exporter</title></head>\n<body>\n<h1>Riak exporter</h1>\n<p><a href=\x27"
    ++ defaultFlags.metricsPath ++ "\x27>Metrics</a></p>\n</body>\n</html>\n"

/-! ## The parts of the Prometheus client the exporter uses -/

/-- A metric descriptor: fully qualified name and help text (the exporter
passes no labels). -/
structure Desc where
  fqName : String
  help : String
deriving DecidableEq, Repr

/-- The library function `prometheus.BuildFQName`: joins the non-empty
components with an underscore, and "if the name parameter itself is empty, an
empty string is returned, no matter what". -/
def BuildFQName (ns subsystem name : String) : String :=
  if name = "" then ""
  else if ns ≠ "" ∧ subsystem ≠ "" then ns ++ "_" ++ subsystem ++ "_" ++ name
  else if ns ≠ "" then ns ++ "_" ++ name
  else if subsystem ≠ "" then subsystem ++ "_" ++ name
  else name

/-- The library function `prometheus.NewDesc` with no labels. -/
def NewDesc (fqName help : String) : Desc := { fqName := fqName, help := help }

/-- The options passed to `NewGauge` and `NewCounter`. -/
structure Opts where
  Namespace : String
  Subsystem : String := ""
  Name : String
  Help : String

/-- A `prometheus.Gauge`: descriptor and current value. -/
structure Gauge where
  desc : Desc
  value : Float64
deriving DecidableEq, Repr

/-- A `prometheus.Counter`.  Its value is kept as the number of `Inc` calls. -/
structure Counter where
  desc : Desc
  value : Nat
deriving DecidableEq, Repr

/-- The library function `prometheus.NewGauge`: a gauge at 0. -/
def NewGauge (o : Opts) : Gauge :=
  { desc := NewDesc (BuildFQName o.Namespace o.Subsystem o.Name) o.Help, value := 0 }

/-- The library function `prometheus.NewCounter`: a counter at 0. -/
def NewCounter (o : Opts) : Counter :=
  { desc := NewDesc (BuildFQName o.Namespace o.Subsystem o.Name) o.Help, value := 0 }

/-- The method `Gauge.Set`. -/
def Gauge.Set (g : Gauge) (v : Float64) : Gauge := { g with value := v }

/-- The method `Counter.Inc`. -/
def Counter.Inc (c : Counter) : Counter := { c with value := c.value + 1 }

/-- The value types of a constant metric. -/
inductive ValueType where
  | CounterValue
  | GaugeValue
  | UntypedValue
deriving DecidableEq, Repr

/-- What is sent on the metric channel: one of the exporter's own gauges or
its counter (with the value it holds once `Collect` is done), or a constant
metric built by `MustNewConstMetric`. -/
inductive Metric where
  | ofGauge (g : Gauge)
  | ofCounter (c : Counter)
  | const (desc : Desc) (valType : ValueType) (val : Float64)
deriving DecidableEq, Repr

/-- The method `Metric.Desc`. -/
def Metric.Desc : Metric → Desc
  | .ofGauge g => g.desc
  | .ofCounter c => c.desc
  | .const d _ _ => d

/-- The library function `prometheus.MustNewConstMetric` called with no label
values.  It panics when `NewConstMetric` reports an error, which in the client
version the exporter was written against is only a mismatch between the number
of label values and of variable labels; both are zero here. -/
def MustNewConstMetric (desc : Desc) (valueType : ValueType) (value : Float64) : Metric :=
  .const desc valueType value

/-! ## The exporter (lines 45-86) -/

/-- The struct `Exporter` (the field `scrapeErrors` is never set or read). -/
structure Exporter where
  url : String
  duration : Gauge
  error : Gauge
  totalScrapes : Counter
  riakUp : Gauge
deriving DecidableEq, Repr

/-- The constructor `NewExporter`. -/
def NewExporter (url : String) : Exporter :=
  { url := url
    duration := NewGauge
      { Namespace := namespaceName, Subsystem := exporter
        Name := "last_scrape_duration_seconds"
        Help := "Duration of the last scrape of metrics from Riak." }
    totalScrapes := NewCounter
      { Namespace := namespaceName, Subsystem := exporter
        Name := "scrapes_total"
        Help := "Total number of times Riak was scraped for metrics." }
    error := NewGauge
      { Namespace := namespaceName, Subsystem := exporter
        Name := "last_scrape_error"
        Help := "Whether the last scrape of metrics from Riak resulted in an error (1 for error, 0 for success)." }
    riakUp := NewGauge
      { Namespace := namespaceName
        Name := "up"
        Help := "Whether the Riak node is up." } }

/-! ## The world of one scrape -/

/-- An HTTP response as far as `scrape` looks at it: the status code and what
`ioutil.ReadAll` makes of the body (`none` when reading fails). -/
structure Response where
  StatusCode : Int
  Body : Option String
deriving DecidableEq, Repr

/-- Everything outside the program that one scrape observes. -/
structure World where
  /-- The call `http.Get url`: `none` when it returns an error. -/
  Get : String → Option Response
  /-- The value of `time.Since(begun).Seconds()` when the deferred function runs. -/
  elapsed : Float64

/-- How a call left: by returning, or by a panic passed on to its caller. -/
inductive Exit where
  | returned
  | panicked
deriving DecidableEq, Repr

/-- The observable result of running `scrape` or `Collect`. -/
structure Run where
  /-- The exporter after the call, deferred functions included. -/
  exporter : Exporter
  /-- The metrics sent on the channel, in order. -/
  sent : List Metric
  /-- The URLs passed to `http.Get`, in order. -/
  requests : List String
  exit : Exit
deriving DecidableEq, Repr

/-! ## scrape (lines 113-185) -/

/-- The deferred function of lines 117-124; `failed` says whether `err != nil`
when it runs. -/
def deferredUpdate (w : World) (failed : Bool) (e : Exporter) : Exporter :=
  let e := { e with duration := e.duration.Set w.elapsed }
  if failed then { e with error := e.error.Set 1 } else { e with error := e.error.Set 0 }

/-- The loop of lines 173-184 over the entries of the map, started with the
metrics `ch` already sent. -/
def sendGauges (ch : List Metric) : List (String × Value) → List Metric
  | [] => ch
  | (metricName, metricValue) :: rest =>
    let description := NewDesc (BuildFQName namespaceName "" metricName) metricName
    match metricValue with
    | .number value => sendGauges (ch ++ [MustNewConstMetric description .GaugeValue value]) rest
    | _ => sendGauges ch rest

/-- The method `Exporter.scrape`.  `Unmarshal` is `json.Unmarshal` into an
empty interface: `none` when it returns an error. -/
def scrape (flags : Flags) (Unmarshal : String → Option Value) (w : World) (e : Exporter) : Run :=
  let e := { e with totalScrapes := e.totalScrapes.Inc }
  let pingURL := flags.riakURI ++ "/ping"
  match w.Get pingURL with
  | none =>
    { exporter := deferredUpdate w true e, sent := [], requests := [pingURL], exit := .returned }
  | some pingResponse =>
    if pingResponse.StatusCode = 200 then
      let e := { e with riakUp := e.riakUp.Set 1 }
      let statsURL := flags.riakURI ++ "/stats"
      let requests := [pingURL, statsURL]
      match w.Get statsURL with
      | none =>
        { exporter := deferredUpdate w true e, sent := [], requests := requests, exit := .returned }
      | some statsResponse =>
        if statsResponse.StatusCode ≠ 200 then
          { exporter := deferredUpdate w true e, sent := [], requests := requests, exit := .returned }
        else
          match statsResponse.Body with
          | none =>
            { exporter := deferredUpdate w true e, sent := [], requests := requests
              exit := .returned }
          | some data =>
            match Unmarshal data with
            | none =>
              { exporter := deferredUpdate w true e, sent := [], requests := requests
                exit := .returned }
            | some (.object m) =>
              { exporter := deferredUpdate w false e, sent := sendGauges [] m
                requests := requests, exit := .returned }
            | some _ =>
              -- the type assertion of line 171 panics; `err` is nil when the
              -- deferred function runs
              { exporter := deferredUpdate w false e, sent := [], requests := requests
                exit := .panicked }
    else
      let e := { e with riakUp := e.riakUp.Set 0 }
      { exporter := deferredUpdate w true e, sent := [], requests := [pingURL], exit := .returned }

/-! ## Collect and Describe (lines 87-111) -/

/-- The method `Exporter.Collect`: the scrape, then the four metrics of the
exporter itself unless the scrape panicked. -/
def Collect (flags : Flags) (Unmarshal : String → Option Value) (w : World) (e : Exporter) : Run :=
  let r := scrape flags Unmarshal w e
  match r.exit with
  | .panicked => r
  | .returned =>
    { r with sent := r.sent ++
        [ .ofGauge r.exporter.duration, .ofCounter r.exporter.totalScrapes
        , .ofGauge r.exporter.error, .ofGauge r.exporter.riakUp ] }

/-- The observable result of running `Describe`. -/
structure DescribeRun where
  exporter : Exporter
  /-- The descriptors sent on the descriptor channel, in order. -/
  descs : List Desc
  requests : List String
  exit : Exit
deriving DecidableEq, Repr

/-- The method `Exporter.Describe`: runs `Collect` on a channel of its own and
forwards the descriptor of every metric that arrives. -/
def Describe (flags : Flags) (Unmarshal : String → Option Value) (w : World) (e : Exporter) :
    DescribeRun :=
  let r := Collect flags Unmarshal w e
  { exporter := r.exporter, descs := r.sent.map Metric.Desc, requests := r.requests
    exit := r.exit }

/-! ## main (lines 191-205) -/

/-- What a registered route serves. -/
inductive Handler where
  /-- The handler `prometheus.Handler()`. -/
  | metrics
  /-- A handler writing a fixed page. -/
  | page (body : String)
deriving DecidableEq, Repr

/-- The routes `main` registers, in order, given the flags as `flag.Parse`
left them. -/
def mainRoutes (parsed : Flags) : List (String × Handler) :=
  [(parsed.metricsPath, .metrics), ("/", .page landingPage)]

/-- The page contains an anchor whose target is `path`. -/
def linksTo (page path : String) : Prop :=
  ("<a href=\x27" ++ path ++ "\x27>").data <:+: page.data

instance (page path : String) : Decidable (linksTo page path) := by
  unfold linksTo; infer_instance


/-! ## The derived gauges as the specification words them -/

/-- The gauge derived from one entry of the stats object: for a key whose value
is a number, a gauge named by the namespace prefix applied to the key, with
the key as help text and the number as value; nothing for any other value. -/
def derivedGauge : String × Value → Option Metric
  | (key, .number x) =>
    some (.const { fqName := BuildFQName namespaceName "" key, help := key } .GaugeValue x)
  | _ => none

/-- The four metrics of the exporter itself, in the order `Collect` sends them. -/
def selfMetrics (e : Exporter) : List Metric :=
  [.ofGauge e.duration, .ofCounter e.totalScrapes, .ofGauge e.error, .ofGauge e.riakUp]

/-! ## Concrete inputs -/

/-- The stats body of the specification's example. -/
def abcBody : String := "\x7b\"a\": 1, \"b\": \"x\", \"c\": 2.5\x7d"

/-- The map the example body decodes to: `a` is 1, `b` is the string `x`,
`c` is 2.5 (bit pattern 0x4004000000000000). -/
def abcEntries : List (String × Value) :=
  [("a", .number 1), ("b", .string "x"), ("c", .number ⟨0x4004000000000000⟩)]

/-- What `json.Unmarshal` returns on the bodies used as concrete inputs: the
example object, the array `[1, 2]`, `null`, the object with the empty key, and
an error on `not json`.  Other bodies are not used. -/
def sampleUnmarshal (data : String) : Option Value :=
  if data = abcBody then some (.object abcEntries)
  else if data = "[1, 2]" then some (.array [.number 1, .number ⟨0x4000000000000000⟩])
  else if data = "null" then some .null
  else if data = "\x7b\"\": 1\x7d" then some (.object [("", .number 1)])
  else none

/-- A node at the default URI: `ping`, when given, is the answer to the ping
request and `stats` the answer to the stats request; `none` is a network
error, as is any other URL. -/
def node (ping stats : Option Response) : World :=
  { Get := fun url =>
      if url = "http://localhost:8098/ping" then ping
      else if url = "http://localhost:8098/stats" then stats
      else none
    elapsed := ⟨0x3F50624DD2F1A9FC⟩ }

/-- A node that answers the ping with 200 and the stats request with 200 and
the given body. -/
def nodeServing (body : String) : World :=
  node (some { StatusCode := 200, Body := some "OK" }) (some { StatusCode := 200, Body := some body })

/-- The exporter `main` builds when started without flags. -/
def freshExporter : Exporter := NewExporter "http://localhost:8098/stats"

/-- The flags after `flag.Parse` of the command line
`-web.telemetry-path=/probe`. -/
def probeFlags : Flags := { defaultFlags with metricsPath := "/probe" }

/-- One of the three operations of the exporter. -/
inductive Op where
  | Describe
  | Collect
  | scrape
deriving DecidableEq, Repr

/-- The exporter after running the operation against a world. -/
def Op.run (flags : Flags) (Unmarshal : String → Option Value) (w : World) :
    Op → Exporter → Exporter
  | .Describe, e => (RiakExporter.Describe flags Unmarshal w e).exporter
  | .Collect, e => (RiakExporter.Collect flags Unmarshal w e).exporter
  | .scrape, e => (RiakExporter.scrape flags Unmarshal w e).exporter

/-! ## Basic facts -/

theorem BuildFQName_nonempty (key : String) (h : key ≠ "") :
    BuildFQName namespaceName "" key = "riak_" ++ key := by
  simp [BuildFQName, namespaceName, h]

theorem BuildFQName_empty (ns subsystem : String) : BuildFQName ns subsystem "" = "" := by
  simp [BuildFQName]

theorem sendGauges_eq (ch : List Metric) (m : List (String × Value)) :
    sendGauges ch m = ch ++ m.filterMap derivedGauge := by
  induction m generalizing ch with
  | nil => simp [sendGauges]
  | cons p rest ih =>
    obtain ⟨k, v⟩ := p
    cases v <;> simp [sendGauges, derivedGauge, ih, MustNewConstMetric, NewDesc]

theorem BuildFQName_inj (k1 k2 : String)
    (h : BuildFQName namespaceName "" k1 = BuildFQName namespaceName "" k2) : k1 = k2 := by
  by_cases h1 : k1 = "" <;> by_cases h2 : k2 = ""
  · rw [h1, h2]
  · rw [h1, BuildFQName_empty, BuildFQName_nonempty k2 h2] at h
    have := congrArg String.length h
    rw [String.length_append] at this
    have h5 : "riak_".length = 5 := by decide
    have h0 : "".length = 0 := by decide
    omega
  · rw [h2, BuildFQName_empty, BuildFQName_nonempty k1 h1] at h
    have := congrArg String.length h
    rw [String.length_append] at this
    have h5 : "riak_".length = 5 := by decide
    have h0 : "".length = 0 := by decide
    omega
  · rw [BuildFQName_nonempty k1 h1, BuildFQName_nonempty k2 h2] at h
    have hd := congrArg String.data h
    simp only [String.data_append, List.append_cancel_left_eq] at hd
    exact String.ext hd

theorem filter_derived_none (m : List (String × Value)) (k : String)
    (h : ∀ x, (k, Value.number x) ∉ m) :
    (m.filterMap derivedGauge).filter
      (fun g => g.Desc.fqName = BuildFQName namespaceName "" k) = [] := by
  induction m with
  | nil => rfl
  | cons p rest ih =>
    have hrest : ∀ x, (k, Value.number x) ∉ rest := fun x hx =>
      h x (List.mem_cons_of_mem _ hx)
    obtain ⟨k1, v⟩ := p
    cases v with
    | number x =>
      have hk : BuildFQName namespaceName "" k1 ≠ BuildFQName namespaceName "" k := by
        intro hk
        have := BuildFQName_inj _ _ hk
        subst this
        exact h x (List.mem_cons_self _ _)
      simp only [List.filterMap_cons, derivedGauge, List.filter_cons, Metric.Desc, hk,
        decide_False, Bool.false_eq_true, if_false]
      exact ih hrest
    | _ => simpa [derivedGauge] using ih hrest

theorem filter_derived_one (m : List (String × Value)) (k : String) (x : Float64)
    (hkeys : (m.map Prod.fst).Nodup) (h : (k, Value.number x) ∈ m) :
    (m.filterMap derivedGauge).filter
      (fun g => g.Desc.fqName = BuildFQName namespaceName "" k)
      = [Metric.const { fqName := BuildFQName namespaceName "" k, help := k } .GaugeValue x] := by
  induction m with
  | nil => simp at h
  | cons p rest ih =>
    rw [List.map_cons, List.nodup_cons] at hkeys
    obtain ⟨hhead, hnodup⟩ := hkeys
    rcases List.mem_cons.mp h with heq | hmem
    · subst heq
      have hnone : ∀ y, (k, Value.number y) ∉ rest := fun y hy =>
        hhead (List.mem_map.mpr ⟨_, hy, rfl⟩)
      have := filter_derived_none rest k hnone
      rw [List.filterMap_cons_some (by rfl), List.filter_cons_of_pos (by simp [Metric.Desc]),
        this]
    · obtain ⟨k1, v⟩ := p
      have hk : BuildFQName namespaceName "" k1 ≠ BuildFQName namespaceName "" k := by
        intro hk
        have := BuildFQName_inj _ _ hk
        subst this
        exact hhead (List.mem_map.mpr ⟨_, hmem, rfl⟩)
      have := ih hnodup hmem
      cases v with
      | number y =>
        simp only [List.filterMap_cons, derivedGauge, List.filter_cons, Metric.Desc, hk,
          decide_False, Bool.false_eq_true, if_false]
        exact this
      | _ => simpa [derivedGauge] using this

theorem derivedGauge_name (p : String × Value) (g : Metric) (h : derivedGauge p = some g) :
    g.Desc.fqName = BuildFQName namespaceName "" p.1 := by
  obtain ⟨k, v⟩ := p
  cases v <;> simp [derivedGauge] at h
  subst h
  rfl

theorem BuildFQName_ne_riak (k : String) : BuildFQName namespaceName "" k ≠ "riak_" ++ "" := by
  by_cases hk : k = ""
  · rw [hk, BuildFQName_empty]
    decide
  · rw [BuildFQName_nonempty k hk]
    intro h
    have hd := congrArg String.data h
    simp only [String.data_append, List.append_cancel_left_eq] at hd
    exact hk (String.ext hd)

theorem filter_riak_empty_key (m : List (String × Value)) :
    (m.filterMap derivedGauge).filter (fun g => g.Desc.fqName = "riak_" ++ "") = [] := by
  rw [List.filter_eq_nil_iff]
  intro g hg
  obtain ⟨p, _, hp⟩ := List.mem_filterMap.mp hg
  rw [derivedGauge_name p g hp]
  simpa using BuildFQName_ne_riak p.1

/-! ## The outcomes of scrape, case by case -/

theorem scrape_ping_error (flags : Flags) (Unmarshal : String → Option Value) (w : World)
    (e : Exporter) (hping : w.Get (flags.riakURI ++ "/ping") = none) :
    scrape flags Unmarshal w e =
      { exporter := deferredUpdate w true { e with totalScrapes := e.totalScrapes.Inc }
        sent := [], requests := [flags.riakURI ++ "/ping"], exit := .returned } := by
  simp [scrape, hping]

theorem scrape_ping_down (flags : Flags) (Unmarshal : String → Option Value) (w : World)
    (e : Exporter) (pingResponse : Response)
    (hping : w.Get (flags.riakURI ++ "/ping") = some pingResponse)
    (hdown : pingResponse.StatusCode ≠ 200) :
    scrape flags Unmarshal w e =
      { exporter := deferredUpdate w true
          { e with totalScrapes := e.totalScrapes.Inc, riakUp := e.riakUp.Set 0 }
        sent := [], requests := [flags.riakURI ++ "/ping"], exit := .returned } := by
  simp [scrape, hping, hdown]

theorem scrape_stats_failed (flags : Flags) (Unmarshal : String → Option Value) (w : World)
    (e : Exporter) (pingResponse : Response)
    (hping : w.Get (flags.riakURI ++ "/ping") = some pingResponse)
    (hup : pingResponse.StatusCode = 200)
    (hfail : w.Get (flags.riakURI ++ "/stats") = none
      ∨ (∃ r, w.Get (flags.riakURI ++ "/stats") = some r ∧ r.StatusCode ≠ 200)
      ∨ (∃ r, w.Get (flags.riakURI ++ "/stats") = some r ∧ r.StatusCode = 200 ∧ r.Body = none)
      ∨ (∃ r data, w.Get (flags.riakURI ++ "/stats") = some r ∧ r.StatusCode = 200
          ∧ r.Body = some data ∧ Unmarshal data = none)) :
    scrape flags Unmarshal w e =
      { exporter := deferredUpdate w true
          { e with totalScrapes := e.totalScrapes.Inc, riakUp := e.riakUp.Set 1 }
        sent := [], requests := [flags.riakURI ++ "/ping", flags.riakURI ++ "/stats"]
        exit := .returned } := by
  rcases hfail with h | ⟨r, h, hs⟩ | ⟨r, h, hs, hb⟩ | ⟨r, data, h, hs, hb, hu⟩
  · simp [scrape, hping, hup, h]
  · simp [scrape, hping, hup, h, hs]
  · simp [scrape, hping, hup, h, hs, hb]
  · simp [scrape, hping, hup, h, hs, hb, hu]

theorem scrape_object (flags : Flags) (Unmarshal : String → Option Value) (w : World)
    (e : Exporter) (pingResponse statsResponse : Response) (data : String)
    (m : List (String × Value))
    (hping : w.Get (flags.riakURI ++ "/ping") = some pingResponse)
    (hup : pingResponse.StatusCode = 200)
    (hstats : w.Get (flags.riakURI ++ "/stats") = some statsResponse)
    (hok : statsResponse.StatusCode = 200)
    (hbody : statsResponse.Body = some data)
    (hjson : Unmarshal data = some (Value.object m)) :
    scrape flags Unmarshal w e =
      { exporter := deferredUpdate w false
          { e with totalScrapes := e.totalScrapes.Inc, riakUp := e.riakUp.Set 1 }
        sent := m.filterMap derivedGauge
        requests := [flags.riakURI ++ "/ping", flags.riakURI ++ "/stats"]
        exit := .returned } := by
  simp [scrape, hping, hup, hstats, hok, hbody, hjson, sendGauges_eq]

theorem scrape_not_object (flags : Flags) (Unmarshal : String → Option Value) (w : World)
    (e : Exporter) (pingResponse statsResponse : Response) (data : String) (v : Value)
    (hping : w.Get (flags.riakURI ++ "/ping") = some pingResponse)
    (hup : pingResponse.StatusCode = 200)
    (hstats : w.Get (flags.riakURI ++ "/stats") = some statsResponse)
    (hok : statsResponse.StatusCode = 200)
    (hbody : statsResponse.Body = some data)
    (hjson : Unmarshal data = some v)
    (hv : ∀ m, v ≠ Value.object m) :
    scrape flags Unmarshal w e =
      { exporter := deferredUpdate w false
          { e with totalScrapes := e.totalScrapes.Inc, riakUp := e.riakUp.Set 1 }
        sent := []
        requests := [flags.riakURI ++ "/ping", flags.riakURI ++ "/stats"]
        exit := .panicked } := by
  cases v with
  | object m => exact absurd rfl (hv m)
  | _ => simp [scrape, hping, hup, hstats, hok, hbody, hjson]

theorem scrape_totalScrapes (flags : Flags) (Unmarshal : String → Option Value) (w : World)
    (e : Exporter) :
    (scrape flags Unmarshal w e).exporter.totalScrapes.value = e.totalScrapes.value + 1 := by
  unfold scrape
  simp only [deferredUpdate, Counter.Inc, Gauge.Set]
  repeat' split
  all_goals rfl

theorem scrape_descs (flags : Flags) (Unmarshal : String → Option Value) (w : World)
    (e : Exporter) :
    (scrape flags Unmarshal w e).exporter.duration.desc = e.duration.desc
    ∧ (scrape flags Unmarshal w e).exporter.totalScrapes.desc = e.totalScrapes.desc
    ∧ (scrape flags Unmarshal w e).exporter.error.desc = e.error.desc
    ∧ (scrape flags Unmarshal w e).exporter.riakUp.desc = e.riakUp.desc := by
  unfold scrape
  simp only [deferredUpdate, Counter.Inc, Gauge.Set]
  repeat' split
  all_goals exact ⟨rfl, rfl, rfl, rfl⟩

theorem Collect_of_returned (flags : Flags) (Unmarshal : String → Option Value) (w : World)
    (e : Exporter) (h : (scrape flags Unmarshal w e).exit = .returned) :
    Collect flags Unmarshal w e =
      { scrape flags Unmarshal w e with
        sent := (scrape flags Unmarshal w e).sent
          ++ selfMetrics (scrape flags Unmarshal w e).exporter } := by
  simp [Collect, h, selfMetrics]

theorem Collect_of_panicked (flags : Flags) (Unmarshal : String → Option Value) (w : World)
    (e : Exporter) (h : (scrape flags Unmarshal w e).exit = .panicked) :
    Collect flags Unmarshal w e = scrape flags Unmarshal w e := by
  simp [Collect, h]

theorem Collect_exporter (flags : Flags) (Unmarshal : String → Option Value) (w : World)
    (e : Exporter) :
    (Collect flags Unmarshal w e).exporter = (scrape flags Unmarshal w e).exporter
    ∧ (Collect flags Unmarshal w e).requests = (scrape flags Unmarshal w e).requests
    ∧ (Collect flags Unmarshal w e).exit = (scrape flags Unmarshal w e).exit := by
  cases h : (scrape flags Unmarshal w e).exit
  · rw [Collect_of_returned _ _ _ _ h]; exact ⟨rfl, rfl, h⟩
  · rw [Collect_of_panicked _ _ _ _ h]; exact ⟨rfl, rfl, h⟩

theorem stats_url_ne_ping_url (uri : String) : uri ++ "/stats" ≠ uri ++ "/ping" := by
  intro h
  have hd := congrArg String.data h
  simp only [String.data_append, List.append_cancel_left_eq] at hd
  exact absurd hd (by decide)

/-! ## The claims -/

/-- Claim C1, which the code breaks at the empty key.  When the ping answers
200 and the stats request answers 200 with a body that decodes to an object
with entries `m` (distinct keys), every non-empty key with a numeric value
gets exactly one gauge, named `riak_` followed by the key and carrying the
number, and a key without a numeric value gets none.  For the empty key with a
numeric value the name line 175 builds is empty, so no gauge named `riak_`
followed by the key is sent; with the client release modelled here the gauge
goes out under the empty name. -/
theorem empty_key_gets_no_riak_gauge
    (flags : Flags) (Unmarshal : String → Option Value) (w : World) (e : Exporter)
    (pingResponse statsResponse : Response) (data : String) (m : List (String × Value))
    (hping : w.Get (flags.riakURI ++ "/ping") = some pingResponse)
    (hup : pingResponse.StatusCode = 200)
    (hstats : w.Get (flags.riakURI ++ "/stats") = some statsResponse)
    (hok : statsResponse.StatusCode = 200)
    (hbody : statsResponse.Body = some data)
    (hjson : Unmarshal data = some (Value.object m))
    (hkeys : (m.map Prod.fst).Nodup) :
    (∀ k x, (k, Value.number x) ∈ m → k ≠ "" →
        (scrape flags Unmarshal w e).sent.filter (fun g => g.Desc.fqName = "riak_" ++ k)
          = [Metric.const { fqName := "riak_" ++ k, help := k } .GaugeValue x])
    ∧ (∀ k, (∀ x, (k, Value.number x) ∉ m) →
        (scrape flags Unmarshal w e).sent.filter (fun g => g.Desc.fqName = "riak_" ++ k) = [])
    ∧ (∀ x, ("", Value.number x) ∈ m →
        BuildFQName namespaceName "" "" = ""
        ∧ (scrape flags Unmarshal w e).sent.filter
            (fun g => g.Desc.fqName = "riak_" ++ "") = []
        ∧ Metric.const { fqName := "", help := "" } .GaugeValue x
            ∈ (scrape flags Unmarshal w e).sent) := by
  rw [scrape_object flags Unmarshal w e pingResponse statsResponse data m hping hup hstats hok
    hbody hjson]
  refine ⟨?_, ?_, ?_⟩
  · intro k x hmem hk
    rw [← BuildFQName_nonempty k hk]
    exact filter_derived_one m k x hkeys hmem
  · intro k hnone
    by_cases hk : k = ""
    · rw [hk]
      exact filter_riak_empty_key m
    · rw [← BuildFQName_nonempty k hk]
      exact filter_derived_none m k hnone
  · intro x hmem
    refine ⟨BuildFQName_empty _ _, filter_riak_empty_key m, ?_⟩
    refine List.mem_filterMap.mpr ⟨("", Value.number x), hmem, ?_⟩
    simp [derivedGauge, BuildFQName_empty]

/-- Witness of C1, the failing input: for the body whose single entry has the
empty key and the value 1, no gauge named `riak_` followed by the key is sent;
the one gauge sent has the empty name. -/
theorem empty_key_gets_no_riak_gauge_witness :
    BuildFQName namespaceName "" "" = ""
    ∧ (scrape defaultFlags sampleUnmarshal (nodeServing "\x7b\"\": 1\x7d")
        freshExporter).sent.filter (fun g => g.Desc.fqName = "riak_" ++ "") = []
    ∧ Metric.const { fqName := "", help := "" } .GaugeValue 1
        ∈ (scrape defaultFlags sampleUnmarshal (nodeServing "\x7b\"\": 1\x7d")
            freshExporter).sent :=
  (empty_key_gets_no_riak_gauge defaultFlags sampleUnmarshal
    (nodeServing "\x7b\"\": 1\x7d") freshExporter { StatusCode := 200, Body := some "OK" }
    { StatusCode := 200, Body := some "\x7b\"\": 1\x7d" } "\x7b\"\": 1\x7d"
    [("", .number 1)] (by decide) (by decide) (by decide) (by decide) rfl (by rfl)
    (by decide)).2.2 1 (List.mem_singleton.mpr rfl)

/-- Claim C3.  When the ping completes with a status other than 200, after the
scrape the up gauge is 0 and last_scrape_error is 1, the only request made is
the ping (none to the stats endpoint), and no derived gauge is sent: scrape
sends nothing and Collect only the four metrics of the exporter itself. -/
theorem ping_not_200_marks_down
    (flags : Flags) (Unmarshal : String → Option Value) (w : World) (e : Exporter)
    (pingResponse : Response)
    (hping : w.Get (flags.riakURI ++ "/ping") = some pingResponse)
    (hdown : pingResponse.StatusCode ≠ 200) :
    (scrape flags Unmarshal w e).exporter.riakUp.value = 0
    ∧ (scrape flags Unmarshal w e).exporter.error.value = 1
    ∧ (scrape flags Unmarshal w e).requests = [flags.riakURI ++ "/ping"]
    ∧ flags.riakURI ++ "/stats" ∉ (scrape flags Unmarshal w e).requests
    ∧ (scrape flags Unmarshal w e).sent = []
    ∧ (scrape flags Unmarshal w e).exit = .returned
    ∧ (Collect flags Unmarshal w e).sent
        = selfMetrics (scrape flags Unmarshal w e).exporter := by
  have hs := scrape_ping_down flags Unmarshal w e pingResponse hping hdown
  have hret : (scrape flags Unmarshal w e).exit = .returned := by rw [hs]
  rw [Collect_of_returned flags Unmarshal w e hret, hs]
  refine ⟨rfl, rfl, rfl, ?_, rfl, rfl, rfl⟩
  simpa using stats_url_ne_ping_url flags.riakURI

/-- Witness of C3: a node answering the ping with 503. -/
theorem ping_not_200_marks_down_witness :
    (scrape defaultFlags sampleUnmarshal
        (node (some { StatusCode := 503, Body := some "" })
          (some { StatusCode := 200, Body := some abcBody })) freshExporter).exporter.riakUp.value = 0
    ∧ (scrape defaultFlags sampleUnmarshal
        (node (some { StatusCode := 503, Body := some "" })
          (some { StatusCode := 200, Body := some abcBody })) freshExporter).exporter.error.value = 1
    ∧ (scrape defaultFlags sampleUnmarshal
        (node (some { StatusCode := 503, Body := some "" })
          (some { StatusCode := 200, Body := some abcBody })) freshExporter).requests
        = ["http://localhost:8098/ping"]
    ∧ (scrape defaultFlags sampleUnmarshal
        (node (some { StatusCode := 503, Body := some "" })
          (some { StatusCode := 200, Body := some abcBody })) freshExporter).sent = [] := by
  have h := ping_not_200_marks_down defaultFlags sampleUnmarshal
    (node (some { StatusCode := 503, Body := some "" })
      (some { StatusCode := 200, Body := some abcBody })) freshExporter
    { StatusCode := 503, Body := some "" } (by decide) (by decide)
  exact ⟨h.1, h.2.1, h.2.2.1.trans (by decide), h.2.2.2.2.1⟩

/-- Claim C4.  When the ping answers 200 and a later step fails (the stats
request has a network error, its status is not 200, its body cannot be read,
or the body is not valid JSON), after the scrape the up gauge is 1,
last_scrape_error is 1 and no derived gauge is sent: scrape sends nothing and
Collect only the four metrics of the exporter itself. -/
theorem later_failure_keeps_up
    (flags : Flags) (Unmarshal : String → Option Value) (w : World) (e : Exporter)
    (pingResponse : Response)
    (hping : w.Get (flags.riakURI ++ "/ping") = some pingResponse)
    (hup : pingResponse.StatusCode = 200)
    (hfail : w.Get (flags.riakURI ++ "/stats") = none
      ∨ (∃ r, w.Get (flags.riakURI ++ "/stats") = some r ∧ r.StatusCode ≠ 200)
      ∨ (∃ r, w.Get (flags.riakURI ++ "/stats") = some r ∧ r.StatusCode = 200 ∧ r.Body = none)
      ∨ (∃ r data, w.Get (flags.riakURI ++ "/stats") = some r ∧ r.StatusCode = 200
          ∧ r.Body = some data ∧ Unmarshal data = none)) :
    (scrape flags Unmarshal w e).exporter.riakUp.value = 1
    ∧ (scrape flags Unmarshal w e).exporter.error.value = 1
    ∧ (scrape flags Unmarshal w e).sent = []
    ∧ (scrape flags Unmarshal w e).exit = .returned
    ∧ (Collect flags Unmarshal w e).sent
        = selfMetrics (scrape flags Unmarshal w e).exporter := by
  have hs := scrape_stats_failed flags Unmarshal w e pingResponse hping hup hfail
  have hret : (scrape flags Unmarshal w e).exit = .returned := by rw [hs]
  rw [Collect_of_returned flags Unmarshal w e hret, hs]
  exact ⟨rfl, rfl, rfl, rfl, rfl⟩

/-- Witness of C4: the stats body `not json`, on which `json.Unmarshal` fails. -/
theorem later_failure_keeps_up_witness :
    (scrape defaultFlags sampleUnmarshal (nodeServing "not json")
        freshExporter).exporter.riakUp.value = 1
    ∧ (scrape defaultFlags sampleUnmarshal (nodeServing "not json")
        freshExporter).exporter.error.value = 1
    ∧ (scrape defaultFlags sampleUnmarshal (nodeServing "not json") freshExporter).sent = [] := by
  have h := later_failure_keeps_up defaultFlags sampleUnmarshal (nodeServing "not json")
    freshExporter { StatusCode := 200, Body := some "OK" } (by decide) (by decide)
    (Or.inr (Or.inr (Or.inr ⟨{ StatusCode := 200, Body := some "not json" }, "not json",
      by decide, by decide, rfl, by rfl⟩)))
  exact ⟨h.1, h.2.1, h.2.2.1⟩

/-- Claim C5.  Every scrape adds exactly 1 to scrapes_total whatever the world
answers; none of the operations of the exporter (Describe, Collect, scrape)
lowers it; and after the scrapes against any `n` worlds in a row, starting
from a new exporter, it is `n`. -/
theorem scrapes_total_counts_scrapes :
    (∀ (flags : Flags) (Unmarshal : String → Option Value) (w : World) (e : Exporter),
      (scrape flags Unmarshal w e).exporter.totalScrapes.value = e.totalScrapes.value + 1)
    ∧ (∀ (flags : Flags) (Unmarshal : String → Option Value) (w : World) (op : Op)
        (e : Exporter), e.totalScrapes.value ≤ (op.run flags Unmarshal w e).totalScrapes.value)
    ∧ (∀ (flags : Flags) (Unmarshal : String → Option Value) (url : String) (ws : List World),
      (ws.foldl (fun e w => (scrape flags Unmarshal w e).exporter)
        (NewExporter url)).totalScrapes.value = ws.length) := by
  refine ⟨scrape_totalScrapes, ?_, ?_⟩
  · intro flags Unmarshal w op e
    have hs := scrape_totalScrapes flags Unmarshal w e
    have hc := (Collect_exporter flags Unmarshal w e).1
    cases op
    · show e.totalScrapes.value ≤ (Collect flags Unmarshal w e).exporter.totalScrapes.value
      rw [hc, hs]; exact Nat.le_succ _
    · show e.totalScrapes.value ≤ (Collect flags Unmarshal w e).exporter.totalScrapes.value
      rw [hc, hs]; exact Nat.le_succ _
    · show e.totalScrapes.value ≤ (scrape flags Unmarshal w e).exporter.totalScrapes.value
      rw [hs]; exact Nat.le_succ _
  · intro flags Unmarshal url ws
    have key : ∀ (l : List World) (e : Exporter),
        (l.foldl (fun e w => (scrape flags Unmarshal w e).exporter) e).totalScrapes.value
          = e.totalScrapes.value + l.length := by
      intro l
      induction l with
      | nil => intro e; rfl
      | cons w rest ih =>
        intro e
        rw [List.foldl_cons, ih, scrape_totalScrapes, List.length_cons]
        omega
    rw [key]
    show 0 + ws.length = ws.length
    omega

/-- Claim C6.  When the ping answers 200 and the stats request answers 200 with
a body that decodes to an object with entries `m`, Collect returns, leaves
last_scrape_error at 0 and up at 1, and sends exactly the gauges derived from
the numeric entries followed by the four metrics of the exporter itself
(duration, scrapes_total, last_scrape_error, up).  When the entries are those
of the example body, in whatever order the map yields them, that is two
derived gauges (for `a` and `c`) and six metrics in all. -/
theorem collect_sends_gauges_and_self_metrics
    (flags : Flags) (Unmarshal : String → Option Value) (w : World) (e : Exporter)
    (pingResponse statsResponse : Response) (data : String) (m : List (String × Value))
    (hping : w.Get (flags.riakURI ++ "/ping") = some pingResponse)
    (hup : pingResponse.StatusCode = 200)
    (hstats : w.Get (flags.riakURI ++ "/stats") = some statsResponse)
    (hok : statsResponse.StatusCode = 200)
    (hbody : statsResponse.Body = some data)
    (hjson : Unmarshal data = some (Value.object m)) :
    (Collect flags Unmarshal w e).exit = .returned
    ∧ (Collect flags Unmarshal w e).exporter.error.value = 0
    ∧ (Collect flags Unmarshal w e).exporter.riakUp.value = 1
    ∧ (Collect flags Unmarshal w e).sent = m.filterMap derivedGauge ++
        [ .ofGauge { desc := e.duration.desc, value := w.elapsed }
        , .ofCounter { desc := e.totalScrapes.desc, value := e.totalScrapes.value + 1 }
        , .ofGauge { desc := e.error.desc, value := 0 }
        , .ofGauge { desc := e.riakUp.desc, value := 1 } ]
    ∧ (m.Perm abcEntries →
        (m.filterMap derivedGauge).Perm
          [ Metric.const { fqName := "riak_a", help := "a" } .GaugeValue 1
          , Metric.const { fqName := "riak_c", help := "c" } .GaugeValue ⟨0x4004000000000000⟩ ]
        ∧ (Collect flags Unmarshal w e).sent.length = 6) := by
  have hs := scrape_object flags Unmarshal w e pingResponse statsResponse data m hping hup
    hstats hok hbody hjson
  have hret : (scrape flags Unmarshal w e).exit = .returned := by rw [hs]
  rw [Collect_of_returned flags Unmarshal w e hret, hs]
  refine ⟨rfl, rfl, rfl, rfl, ?_⟩
  intro hperm
  have hp := hperm.filterMap derivedGauge
  have habc : abcEntries.filterMap derivedGauge =
      [ Metric.const { fqName := "riak_a", help := "a" } .GaugeValue 1
      , Metric.const { fqName := "riak_c", help := "c" } .GaugeValue ⟨0x4004000000000000⟩ ] := by
    rfl
  rw [habc] at hp
  refine ⟨hp, ?_⟩
  show (m.filterMap derivedGauge ++ _).length = 6
  rw [List.length_append, hp.length_eq]
  rfl

/-- Witness of C6 at the example body: the six metrics Collect sends, with
their names. -/
theorem collect_sends_gauges_and_self_metrics_witness :
    (Collect defaultFlags sampleUnmarshal (nodeServing abcBody) freshExporter).sent.map
        (fun g => g.Desc.fqName)
      = [ "riak_a", "riak_c", "riak_exporter_last_scrape_duration_seconds"
        , "riak_exporter_scrapes_total", "riak_exporter_last_scrape_error", "riak_up" ]
    ∧ (Collect defaultFlags sampleUnmarshal (nodeServing abcBody)
        freshExporter).exporter.error.value = 0
    ∧ (Collect defaultFlags sampleUnmarshal (nodeServing abcBody)
        freshExporter).exporter.riakUp.value = 1
    ∧ (Collect defaultFlags sampleUnmarshal (nodeServing abcBody) freshExporter).sent.length
        = 6 := by
  have h := collect_sends_gauges_and_self_metrics defaultFlags sampleUnmarshal
    (nodeServing abcBody) freshExporter { StatusCode := 200, Body := some "OK" }
    { StatusCode := 200, Body := some abcBody } abcBody abcEntries
    (by decide) (by decide) (by decide) (by decide) rfl (by rfl)
  refine ⟨?_, h.2.1, h.2.2.1, (h.2.2.2.2 (List.Perm.refl _)).2⟩
  rw [h.2.2.2.1]
  decide

/-- Claim C8.  When the ping request fails with a network error, the scrape
leaves last_scrape_error at 1, makes no request but the ping (none to the
stats endpoint), sends no derived gauge, and leaves the up gauge exactly as it
was before the scrape. -/
theorem ping_error_keeps_up_gauge
    (flags : Flags) (Unmarshal : String → Option Value) (w : World) (e : Exporter)
    (hping : w.Get (flags.riakURI ++ "/ping") = none) :
    (scrape flags Unmarshal w e).exporter.error.value = 1
    ∧ (scrape flags Unmarshal w e).requests = [flags.riakURI ++ "/ping"]
    ∧ flags.riakURI ++ "/stats" ∉ (scrape flags Unmarshal w e).requests
    ∧ (scrape flags Unmarshal w e).sent = []
    ∧ (scrape flags Unmarshal w e).exporter.riakUp = e.riakUp
    ∧ (scrape flags Unmarshal w e).exit = .returned
    ∧ (Collect flags Unmarshal w e).sent
        = selfMetrics (scrape flags Unmarshal w e).exporter := by
  have hs := scrape_ping_error flags Unmarshal w e hping
  have hret : (scrape flags Unmarshal w e).exit = .returned := by rw [hs]
  rw [Collect_of_returned flags Unmarshal w e hret, hs]
  refine ⟨rfl, rfl, ?_, rfl, rfl, rfl, rfl⟩
  simpa using stats_url_ne_ping_url flags.riakURI

/-- Witness of C8: an unreachable node, scraped by an exporter whose up gauge
is 1 from an earlier scrape; the gauge is still 1 afterwards. -/
theorem ping_error_keeps_up_gauge_witness :
    (scrape defaultFlags sampleUnmarshal (node none none)
        (scrape defaultFlags sampleUnmarshal (nodeServing abcBody)
          freshExporter).exporter).exporter.riakUp.value = 1
    ∧ (scrape defaultFlags sampleUnmarshal (node none none)
        (scrape defaultFlags sampleUnmarshal (nodeServing abcBody)
          freshExporter).exporter).exporter.error.value = 1 := by
  have h := ping_error_keeps_up_gauge defaultFlags sampleUnmarshal (node none none)
    (scrape defaultFlags sampleUnmarshal (nodeServing abcBody) freshExporter).exporter
    (by decide)
  refine ⟨?_, h.1⟩
  rw [h.2.2.2.2.1]
  decide

/-- Claim C2, which the code breaks.  scrape passes a panic to its caller
exactly when the ping answers 200, the stats request answers 200, the body is
read and decodes, and the decoded value is not an object (the unchecked type
assertion of line 171); on every other outcome it returns.  For the stats body
`[1, 2]` scrape panics, and Collect with it, before any of the four metrics of
the exporter itself is sent. -/
theorem scrape_panics_on_non_object_json :
    (∀ (flags : Flags) (Unmarshal : String → Option Value) (w : World) (e : Exporter),
      (scrape flags Unmarshal w e).exit = .panicked ↔
        ∃ pingResponse statsResponse data v,
          w.Get (flags.riakURI ++ "/ping") = some pingResponse
          ∧ pingResponse.StatusCode = 200
          ∧ w.Get (flags.riakURI ++ "/stats") = some statsResponse
          ∧ statsResponse.StatusCode = 200
          ∧ statsResponse.Body = some data
          ∧ Unmarshal data = some v
          ∧ ∀ m, v ≠ Value.object m)
    ∧ sampleUnmarshal "[1, 2]" = some (.array [.number 1, .number ⟨0x4000000000000000⟩])
    ∧ (scrape defaultFlags sampleUnmarshal (nodeServing "[1, 2]") freshExporter).exit = .panicked
    ∧ (Collect defaultFlags sampleUnmarshal (nodeServing "[1, 2]") freshExporter).exit
        = .panicked
    ∧ (Collect defaultFlags sampleUnmarshal (nodeServing "[1, 2]") freshExporter).sent = [] := by
  refine ⟨?_, by rfl, by decide, by decide, by decide⟩
  intro flags Unmarshal w e
  constructor
  · intro h
    cases hp : w.Get (flags.riakURI ++ "/ping") with
    | none => simp [scrape, hp] at h
    | some pingResponse =>
      by_cases hup : pingResponse.StatusCode = 200
      · cases hs : w.Get (flags.riakURI ++ "/stats") with
        | none => simp [scrape, hp, hup, hs] at h
        | some statsResponse =>
          by_cases hok : statsResponse.StatusCode = 200
          · cases hb : statsResponse.Body with
            | none => simp [scrape, hp, hup, hs, hok, hb] at h
            | some data =>
              cases hu : Unmarshal data with
              | none => simp [scrape, hp, hup, hs, hok, hb, hu] at h
              | some v =>
                refine ⟨pingResponse, statsResponse, data, v, rfl, hup, rfl, hok, hb, hu, ?_⟩
                intro m hm
                subst hm
                simp [scrape, hp, hup, hs, hok, hb, hu] at h
          · simp [scrape, hp, hup, hs, hok] at h
      · simp [scrape, hp, hup] at h
  · rintro ⟨pingResponse, statsResponse, data, v, hp, hup, hs, hok, hb, hu, hv⟩
    rw [scrape_not_object flags Unmarshal w e pingResponse statsResponse data v hp hup hs hok
      hb hu hv]

/-- Claim C7, which the code breaks.  When the ping and the stats request both
answer 200 and the body decodes to a value that is not an object, scrape sends
no derived gauge but does not record an error: it panics at the type assertion
of line 171 with `err` nil, so the deferred function sets last_scrape_error to
0, not 1. -/
theorem non_object_json_sets_error_gauge_to_0
    (flags : Flags) (Unmarshal : String → Option Value) (w : World) (e : Exporter)
    (pingResponse statsResponse : Response) (data : String) (v : Value)
    (hping : w.Get (flags.riakURI ++ "/ping") = some pingResponse)
    (hup : pingResponse.StatusCode = 200)
    (hstats : w.Get (flags.riakURI ++ "/stats") = some statsResponse)
    (hok : statsResponse.StatusCode = 200)
    (hbody : statsResponse.Body = some data)
    (hjson : Unmarshal data = some v)
    (hv : ∀ m, v ≠ Value.object m) :
    (scrape flags Unmarshal w e).exit = .panicked
    ∧ (scrape flags Unmarshal w e).exporter.error.value = 0
    ∧ (scrape flags Unmarshal w e).exporter.error.value ≠ 1
    ∧ (scrape flags Unmarshal w e).sent = [] := by
  rw [scrape_not_object flags Unmarshal w e pingResponse statsResponse data v hping hup hstats
    hok hbody hjson hv]
  have h01 : (0 : Float64) ≠ 1 := by decide
  exact ⟨rfl, rfl, h01, rfl⟩

/-- Witness of C7: the stats body `null`. -/
theorem non_object_json_sets_error_gauge_to_0_witness :
    (scrape defaultFlags sampleUnmarshal (nodeServing "null") freshExporter).exit = .panicked
    ∧ (scrape defaultFlags sampleUnmarshal (nodeServing "null")
        freshExporter).exporter.error.value = 0
    ∧ (scrape defaultFlags sampleUnmarshal (nodeServing "null")
        freshExporter).exporter.error.value ≠ 1
    ∧ (scrape defaultFlags sampleUnmarshal (nodeServing "null") freshExporter).sent = [] :=
  non_object_json_sets_error_gauge_to_0 defaultFlags sampleUnmarshal (nodeServing "null")
    freshExporter { StatusCode := 200, Body := some "OK" }
    { StatusCode := 200, Body := some "null" } "null" .null
    (by decide) (by decide) (by decide) (by decide) rfl (by rfl) (fun _ h => by cases h)

set_option maxRecDepth 20000 in
/-- Claim C9, which the code breaks.  Started with
`-web.telemetry-path=/probe`, main registers the metrics handler under
`/probe`, while the page served at `/` was built before the flags were parsed:
it links to the default `/metrics` and not to `/probe`. -/
theorem landing_page_links_to_default_path :
    mainRoutes probeFlags = [("/probe", .metrics), ("/", .page landingPage)]
    ∧ linksTo landingPage "/metrics"
    ∧ ¬ linksTo landingPage "/probe"
    ∧ ∀ parsed : Flags, mainRoutes parsed = [(parsed.metricsPath, .metrics),
        ("/", .page landingPage)] := by
  refine ⟨by decide, by decide, by decide, fun _ => rfl⟩

/-- Claim C10, which the code breaks on the bodies of C2.  Describe runs one
Collect: whatever the world answers it leaves the exporter as Collect does,
with scrapes_total one higher, makes the requests of a scrape, and sends the
descriptors of the metrics Collect sends, in order; these are the descriptors
of the derived gauges followed, when the scrape returns, by those of the four
metrics of the exporter itself.  For the stats body `[1, 2]` the scrape panics
and Describe with it, having sent no descriptor at all. -/
theorem describe_runs_one_collect :
    (∀ (flags : Flags) (Unmarshal : String → Option Value) (w : World) (e : Exporter),
      (Describe flags Unmarshal w e).exporter = (Collect flags Unmarshal w e).exporter
      ∧ (Describe flags Unmarshal w e).exporter.totalScrapes.value = e.totalScrapes.value + 1
      ∧ (Describe flags Unmarshal w e).requests = (scrape flags Unmarshal w e).requests
      ∧ (Describe flags Unmarshal w e).descs
          = (Collect flags Unmarshal w e).sent.map Metric.Desc
      ∧ (Describe flags Unmarshal w e).descs
          = (scrape flags Unmarshal w e).sent.map Metric.Desc ++
            (if (scrape flags Unmarshal w e).exit = .returned then
              [e.duration.desc, e.totalScrapes.desc, e.error.desc, e.riakUp.desc]
            else []))
    ∧ (Describe defaultFlags sampleUnmarshal (nodeServing "[1, 2]") freshExporter).exit
        = .panicked
    ∧ (Describe defaultFlags sampleUnmarshal (nodeServing "[1, 2]") freshExporter).descs
        = [] := by
  refine ⟨?_, by decide, by decide⟩
  intro flags Unmarshal w e
  obtain ⟨hce, hcr, _⟩ := Collect_exporter flags Unmarshal w e
  obtain ⟨hd1, hd2, hd3, hd4⟩ := scrape_descs flags Unmarshal w e
  refine ⟨rfl, ?_, hcr, rfl, ?_⟩
  · show (Collect flags Unmarshal w e).exporter.totalScrapes.value = _
    rw [hce, scrape_totalScrapes]
  · show (Collect flags Unmarshal w e).sent.map Metric.Desc = _
    cases h : (scrape flags Unmarshal w e).exit
    · rw [Collect_of_returned flags Unmarshal w e h]
      simp [selfMetrics, Metric.Desc, hd1, hd2, hd3, hd4]
    · rw [Collect_of_panicked flags Unmarshal w e h]
      simp

end RiakExporter
